import Mathlib

/-!
Verification of the budget/dashboard aggregation core of an expense-manager
backend. The four aggregators (budget overview, budget analytics, budget
alert checking, dashboard statistics) are embedded as pure functions over an
explicit relational store; monetary amounts are exact rationals, SQL date
columns are calendar dates compared lexicographically (matching comparison of
ISO YYYY-MM-DD strings), and the SQL aggregate queries issued by the handlers
are embedded as list filters, sums and group-bys over the store's rows.
A second, fallible layer threads storage access through an exception monad to
reason about error propagation.
-/

namespace ExpenseMgr

/-- Expense approval status, mirroring the expense_status enum
(PENDING | APPROVED | REJECTED). -/
inductive Status where
  | PENDING
  | APPROVED
  | REJECTED
  deriving DecidableEq, Repr

/-- Budget period, mirroring the budget_period enum (MONTHLY | YEARLY). -/
inductive Period where
  | MONTHLY
  | YEARLY
  deriving DecidableEq, Repr

/-- A calendar date (year, month, day). SQL date columns hold such values and
the handlers compare them as ISO YYYY-MM-DD strings, i.e. lexicographically. -/
structure DateT where
  y : Nat
  m : Nat
  d : Nat
  deriving DecidableEq, Repr

/-- Lexicographic order on dates: the order SQL comparison of date columns
against YYYY-MM-DD strings implements. -/
def DateT.dle (a b : DateT) : Bool :=
  decide (a.y < b.y) ||
    (decide (a.y = b.y) &&
      (decide (a.m < b.m) || (decide (a.m = b.m) && decide (a.d ≤ b.d))))

/-- A row of the budgets table, after convertBudget has parsed the numeric
columns. category_id is null for an overall budget. -/
structure Budget where
  id : Nat
  user_id : Nat
  category_id : Option Nat
  amount : ℚ
  period : Period
  start_date : DateT
  end_date : DateT
  alert_threshold : ℚ
  deriving DecidableEq, Repr

/-- A row of the expenses table, restricted to the columns the aggregation
core reads. created_at is a creation timestamp used only for recency order. -/
structure Expense where
  id : Nat
  user_id : Nat
  category_id : Option Nat
  amount : ℚ
  status : Status
  expense_date : DateT
  created_at : Nat
  deriving DecidableEq, Repr

/-- A row of the categories table (the columns the dashboard join reads). -/
structure Category where
  id : Nat
  name : String
  deriving DecidableEq, Repr

/-- The relational store the aggregators read: users (ids only), categories,
budgets and expenses. -/
structure Store where
  users : List Nat
  categories : List Category
  budgets : List Budget
  expenses : List Expense
  deriving Repr

/-- Embeds the query select * from budgets where user_id = u (getBudgets). -/
def getBudgets (s : Store) (u : Nat) : List Budget :=
  s.budgets.filter (fun b => b.user_id == u)

/-- Sum of the amount column over a list of expense rows: the value SQL
sum(amount) delivers (with the null-when-empty result coalesced to 0, as the
handlers do). -/
def sumAmounts (l : List Expense) : ℚ :=
  (l.map Expense.amount).sum

/-- Sum of the amount column over a list of budget rows. -/
def budgetAmountSum (l : List Budget) : ℚ :=
  (l.map Budget.amount).sum

/-- Embeds the query for all APPROVED expenses of a user, with no date or
category restriction (the rows getBudgetOverview's sum query ranges over). -/
def approvedExpenses (s : Store) (u : Nat) : List Expense :=
  s.expenses.filter (fun e => e.user_id == u && e.status == Status.APPROVED)

/-- The BudgetOverviewResponse record returned by getBudgetOverview. -/
structure BudgetOverview where
  budgets : List Budget
  total_budget : ℚ
  total_spent : ℚ
  remaining : ℚ
  percentage_used : ℚ
  deriving DecidableEq, Repr

/-- The arithmetic getBudgetOverview performs once its two queries have
returned: total, remaining and guarded percentage. -/
def overviewCore (budgets : List Budget) (total_spent : ℚ) : BudgetOverview :=
  let total_budget := budgetAmountSum budgets
  { budgets := budgets
    total_budget := total_budget
    total_spent := total_spent
    remaining := total_budget - total_spent
    percentage_used := if total_budget > 0 then total_spent / total_budget * 100 else 0 }

/-- getBudgetOverview: all budgets of the user, the all-time APPROVED spend,
and the derived totals. -/
def getBudgetOverview (s : Store) (u : Nat) : BudgetOverview :=
  overviewCore (getBudgets s u) (sumAmounts (approvedExpenses s u))

lemma budgetAmountSum_nonneg (l : List Budget) (h : ∀ b ∈ l, 0 ≤ b.amount) :
    0 ≤ budgetAmountSum l := by
  apply List.sum_nonneg
  intro x hx
  obtain ⟨b, hb, rfl⟩ := List.mem_map.mp hx
  exact h b hb

lemma budgetAmountSum_pos (l : List Budget) (h : ∀ b ∈ l, 0 ≤ b.amount)
    (hne : budgetAmountSum l ≠ 0) : 0 < budgetAmountSum l :=
  lt_of_le_of_ne (budgetAmountSum_nonneg l h) (Ne.symm hne)

/-- Embeds the query select * from expenses where user_id = u (any status). -/
def userExpenses (s : Store) (u : Nat) : List Expense :=
  s.expenses.filter (fun e => e.user_id == u)

lemma approvedExpenses_eq_nil (s : Store) (u : Nat) (h : userExpenses s u = []) :
    approvedExpenses s u = [] := by
  rw [userExpenses, List.filter_eq_nil_iff] at h
  rw [approvedExpenses, List.filter_eq_nil_iff]
  intro e he
  have := h e he
  simp only [Bool.and_eq_true, not_and]
  intro hu
  exact absurd hu this

/-- A sample store holding one user and nothing else. -/
def emptyUserStore : Store := ⟨[1], [], [], []⟩

/-- Claim C1: getBudgetOverview returns the user's budgets, the sum of their
amounts as total_budget, the all-time sum of the user's APPROVED expense
amounts as total_spent (no date or category restriction), remaining equal to
total_budget minus total_spent (not clamped), and percentage_used equal to 0
when total_budget is 0 and to (total_spent / total_budget) * 100 otherwise;
a user with no budgets and no expenses gets the all-zero overview with an
empty budget list, and the operation is total. -/
theorem C1_getBudgetOverview_spec (s : Store) (u : Nat)
    (hpos : ∀ b ∈ s.budgets, 0 ≤ b.amount) :
    (getBudgetOverview s u).budgets = s.budgets.filter (fun b => b.user_id == u) ∧
    (getBudgetOverview s u).total_budget = budgetAmountSum (getBudgets s u) ∧
    (getBudgetOverview s u).total_spent =
      sumAmounts (s.expenses.filter (fun e => e.user_id == u && e.status == Status.APPROVED)) ∧
    (getBudgetOverview s u).remaining =
      (getBudgetOverview s u).total_budget - (getBudgetOverview s u).total_spent ∧
    ((getBudgetOverview s u).total_budget = 0 → (getBudgetOverview s u).percentage_used = 0) ∧
    ((getBudgetOverview s u).total_budget ≠ 0 →
      (getBudgetOverview s u).percentage_used =
        (getBudgetOverview s u).total_spent / (getBudgetOverview s u).total_budget * 100) ∧
    (getBudgets s u = [] → userExpenses s u = [] →
      getBudgetOverview s u = ⟨[], 0, 0, 0, 0⟩) := by
  refine ⟨rfl, rfl, rfl, rfl, ?_, ?_, ?_⟩
  · intro h
    have h' : budgetAmountSum (getBudgets s u) = 0 := h
    show (if budgetAmountSum (getBudgets s u) > 0 then _ else 0) = 0
    rw [h']
    simp
  · intro h
    have hb' : ∀ b ∈ getBudgets s u, 0 ≤ b.amount :=
      fun b hb => hpos b (List.mem_filter.mp hb).1
    have hpos' := budgetAmountSum_pos _ hb' h
    show (if budgetAmountSum (getBudgets s u) > 0 then
        sumAmounts (approvedExpenses s u) / budgetAmountSum (getBudgets s u) * 100 else 0) = _
    rw [if_pos hpos']
    rfl
  · intro h1 h2
    have h3 := approvedExpenses_eq_nil s u h2
    simp [getBudgetOverview, overviewCore, h1, h3, budgetAmountSum, sumAmounts]

/-- Witness for C1: at a store with one user and no budgets or expenses the
overview is entirely zeroed and its budget list is empty. -/
theorem C1_witness :
    (∀ b ∈ emptyUserStore.budgets, 0 ≤ b.amount) ∧
    getBudgetOverview emptyUserStore 1 = ⟨[], 0, 0, 0, 0⟩ := by
  refine ⟨fun b hb => by simp [emptyUserStore] at hb, ?_⟩
  exact (C1_getBudgetOverview_spec emptyUserStore 1
    (fun b hb => by simp [emptyUserStore] at hb)).2.2.2.2.2.2 rfl rfl

/-- JavaScript truthiness of a nullable numeric column: null and 0 are falsy.
The alert checker pushes its category condition under this test. -/
def jsTruthy : Option Nat → Bool
  | none => false
  | some c => c != 0

/-- The BudgetAlert record pushed by checkBudgetAlerts. -/
structure BudgetAlert where
  budget_id : Nat
  category_id : Option Nat
  budget_amount : ℚ
  amount_spent : ℚ
  usage_percentage : ℚ
  alert_threshold : ℚ
  period : Period
  start_date : DateT
  end_date : DateT
  deriving DecidableEq, Repr

/-- Builds the alert record for a budget from its computed spend and usage. -/
def mkAlert (b : Budget) (spent usage : ℚ) : BudgetAlert :=
  ⟨b.id, b.category_id, b.amount, spent, usage, b.alert_threshold, b.period,
    b.start_date, b.end_date⟩

/-- Guarded usage percentage shared by the alert loop: 0 for a non-positive
budget amount, (spent / amount) * 100 otherwise. -/
def usageOf (b : Budget) (spent : ℚ) : ℚ :=
  if b.amount > 0 then spent / b.amount * 100 else 0

/-- The category condition the alert checker appends to its per-budget query:
present only when the budget's category_id is truthy. -/
def catCond (b : Budget) (e : Expense) : Bool :=
  if jsTruthy b.category_id then e.category_id == b.category_id else true

/-- Embeds the per-budget sum query of checkBudgetAlerts: APPROVED expenses of
the user dated within the budget's window, with the category condition when
the budget is category-specific. -/
def budgetWindowSpent (s : Store) (u : Nat) (b : Budget) : ℚ :=
  sumAmounts (s.expenses.filter (fun e =>
    e.user_id == u && e.status == Status.APPROVED &&
    DateT.dle b.start_date e.expense_date && DateT.dle e.expense_date b.end_date &&
    catCond b e))

/-- One iteration of the alert loop: emit the alert record when usage reaches
the threshold (inclusive comparison), nothing otherwise. -/
def alertStep (b : Budget) (spent : ℚ) : Option BudgetAlert :=
  if usageOf b spent ≥ b.alert_threshold then some (mkAlert b spent (usageOf b spent))
  else none

/-- checkBudgetAlerts: for each budget of the user, compute the windowed spend
and push an alert when usage reaches the threshold. -/
def checkBudgetAlerts (s : Store) (u : Nat) : List BudgetAlert :=
  (getBudgets s u).filterMap (fun b => alertStep b (budgetWindowSpent s u b))

/-- Claim C2: for every budget of the user, checkBudgetAlerts computes
amount_spent as the sum of the user's APPROVED expenses dated inside the
budget's inclusive window, restricted to the budget's category exactly when
category_id is non-null, sets usage_percentage to 0 when the budget amount is
0 and to (amount_spent / amount) * 100 otherwise, and emits the alert record
if and only if usage_percentage ≥ alert_threshold (equality triggers). -/
theorem C2_checkBudgetAlerts_spec (s : Store) (u : Nat) (b : Budget)
    (hb : b ∈ s.budgets) (hbu : b.user_id = u)
    (hcat : b.category_id ≠ some 0) (hamt : 0 ≤ b.amount) :
    budgetWindowSpent s u b =
      sumAmounts (s.expenses.filter (fun e =>
        e.user_id == u && e.status == Status.APPROVED &&
        DateT.dle b.start_date e.expense_date && DateT.dle e.expense_date b.end_date &&
        (match b.category_id with
         | some c => e.category_id == some c
         | none => true))) ∧
    (b.amount = 0 → usageOf b (budgetWindowSpent s u b) = 0) ∧
    (b.amount ≠ 0 → usageOf b (budgetWindowSpent s u b) =
        budgetWindowSpent s u b / b.amount * 100) ∧
    (mkAlert b (budgetWindowSpent s u b) (usageOf b (budgetWindowSpent s u b))
        ∈ checkBudgetAlerts s u ↔
      usageOf b (budgetWindowSpent s u b) ≥ b.alert_threshold) := by
  refine ⟨?_, ?_, ?_, ?_, ?_⟩
  · unfold budgetWindowSpent
    congr 1
    apply List.filter_congr
    intro e _
    cases hc : b.category_id with
    | none => simp [catCond, jsTruthy, hc]
    | some c =>
        have hcz : c ≠ 0 := fun h => hcat (by rw [hc, h])
        simp [catCond, jsTruthy, hc, hcz]
  · intro h
    simp [usageOf, h]
  · intro h
    have : 0 < b.amount := lt_of_le_of_ne hamt (Ne.symm h)
    simp [usageOf, this]
  · intro hmem
    obtain ⟨b', hb', heq⟩ := List.mem_filterMap.mp hmem
    unfold alertStep at heq
    split at heq
    · next hcond =>
        rw [Option.some.injEq] at heq
        simp only [mkAlert, BudgetAlert.mk.injEq] at heq
        obtain ⟨_, _, _, _, husage, hthr, _, _, _⟩ := heq
        rw [← husage, ← hthr]
        exact hcond
    · exact absurd heq (by simp)
  · intro hge
    apply List.mem_filterMap.mpr
    refine ⟨b, List.mem_filter.mpr ⟨hb, by simp [hbu]⟩, ?_⟩
    unfold alertStep
    rw [if_pos hge]

/-- A sample store for the alert scenario: one budget of amount 1000 with
alert threshold 80 on category 1, and one APPROVED expense of 850 inside the
budget window and category. -/
def alertStore : Store :=
  ⟨[1], [⟨1, "Food"⟩],
   [⟨1, 1, some 1, 1000, Period.MONTHLY, ⟨2024, 1, 1⟩, ⟨2024, 1, 31⟩, 80⟩],
   [⟨1, 1, some 1, 850, Status.APPROVED, ⟨2024, 1, 15⟩, 10⟩]⟩

/-- The single budget of the alert sample store. -/
def alertBudget : Budget :=
  ⟨1, 1, some 1, 1000, Period.MONTHLY, ⟨2024, 1, 1⟩, ⟨2024, 1, 31⟩, 80⟩

/-- Witness for C2: in the sample store the usage is 85 percent, at or above
the 80 percent threshold, so the alert record is emitted. -/
theorem C2_witness :
    (alertBudget ∈ alertStore.budgets ∧ alertBudget.user_id = 1 ∧
      alertBudget.category_id ≠ some 0 ∧ 0 ≤ alertBudget.amount) ∧
    mkAlert alertBudget (budgetWindowSpent alertStore 1 alertBudget)
      (usageOf alertBudget (budgetWindowSpent alertStore 1 alertBudget))
      ∈ checkBudgetAlerts alertStore 1 := by
  have hmem : alertBudget ∈ alertStore.budgets := by simp [alertStore, alertBudget]
  have hspent : budgetWindowSpent alertStore 1 alertBudget = 850 := by
    simp [budgetWindowSpent, alertStore, alertBudget, sumAmounts, DateT.dle,
      catCond, jsTruthy]
  have husage : usageOf alertBudget (budgetWindowSpent alertStore 1 alertBudget) = 85 := by
    rw [hspent]
    simp only [usageOf, alertBudget]
    norm_num
  refine ⟨⟨hmem, rfl, by simp [alertBudget], by norm_num [alertBudget]⟩, ?_⟩
  exact (C2_checkBudgetAlerts_spec alertStore 1 alertBudget hmem rfl
    (by simp [alertBudget]) (by norm_num [alertBudget])).2.2.2.mpr
    (by rw [husage]; norm_num [alertBudget])

lemma indicator_sum {κ : Type} [BEq κ] [LawfulBEq κ] (K : List κ) (hK : K.Nodup) {k : κ}
    (hk : k ∈ K) (a : ℚ) :
    (K.map (fun c => if k == c then a else 0)).sum = a := by
  induction K with
  | nil => cases hk
  | cons c t ih =>
      rw [List.map_cons, List.sum_cons]
      rcases List.mem_cons.mp hk with h | h
      · subst h
        rw [if_pos (by simp)]
        have hz : ∀ x ∈ t.map (fun c => if k == c then a else 0), x = 0 := by
          intro x hx
          obtain ⟨c', hc', rfl⟩ := List.mem_map.mp hx
          rw [if_neg]
          intro hbeq
          have hkc : k = c' := by simpa using hbeq
          exact (List.nodup_cons.mp hK).1 (hkc ▸ hc')
        rw [List.sum_eq_zero hz, add_zero]
      · have hne : ¬(k == c) = true := by
          simp only [beq_iff_eq]
          intro hkc
          exact (List.nodup_cons.mp hK).1 (hkc ▸ h)
        rw [if_neg hne, ih (List.nodup_cons.mp hK).2 h, zero_add]

lemma fiber_sum {κ : Type} [BEq κ] [LawfulBEq κ] (key : Expense → κ) (K : List κ)
    (hK : K.Nodup) (l : List Expense) (hl : ∀ e ∈ l, key e ∈ K) :
    (K.map (fun c => sumAmounts (l.filter (fun e => key e == c)))).sum = sumAmounts l := by
  induction l with
  | nil => simp [sumAmounts]
  | cons e t ih =>
      have hsplit : ∀ c : κ, sumAmounts ((e :: t).filter (fun x => key x == c)) =
          (if key e == c then e.amount else 0) + sumAmounts (t.filter (fun x => key x == c)) := by
        intro c
        by_cases h : key e = c
        · rw [List.filter_cons_of_pos (by simp [h]), if_pos (by simp [h])]
          simp [sumAmounts]
        · rw [List.filter_cons_of_neg (by simp [h]), if_neg (by simp [h]), zero_add]
      calc (K.map fun c => sumAmounts ((e :: t).filter fun x => key x == c)).sum
          = (K.map fun c => (if key e == c then e.amount else 0) +
              sumAmounts (t.filter fun x => key x == c)).sum :=
            congrArg _ (List.map_congr_left (fun c _ => hsplit c))
        _ = (K.map fun c => if key e == c then e.amount else 0).sum +
            (K.map fun c => sumAmounts (t.filter fun x => key x == c)).sum :=
            List.sum_map_add
        _ = e.amount + sumAmounts t := by
            rw [ih (fun x hx => hl x (List.mem_cons_of_mem e hx)),
              indicator_sum K hK (hl e (List.mem_cons_self e t)) e.amount]
        _ = sumAmounts (e :: t) := by simp [sumAmounts]

/-- Input record of getBudgetAnalytics: user, period type and date range. -/
structure AnalyticsInput where
  user_id : Nat
  period : Period
  start_date : DateT
  end_date : DateT
  deriving DecidableEq, Repr

/-- One category_breakdown entry of getBudgetAnalytics (category_id may be
null: the null group of the SQL group-by forms its own row). -/
structure CategorySpend where
  category_id : Option Nat
  amount_spent : ℚ
  percentage : ℚ
  deriving DecidableEq, Repr

/-- One spending_trend entry of getBudgetAnalytics. -/
structure TrendPoint where
  period : String
  amount : ℚ
  deriving DecidableEq, Repr

/-- The record returned by getBudgetAnalytics. -/
structure BudgetAnalyticsResult where
  budget_utilization : ℚ
  category_breakdown : List CategorySpend
  spending_trend : List TrendPoint
  recommendations : List String
  deriving DecidableEq, Repr

/-- Embeds the analytics budget query: same user, same period, and the budget
window overlaps the requested range (end_date >= start AND start_date <= end). -/
def analyticsBudgets (s : Store) (i : AnalyticsInput) : List Budget :=
  s.budgets.filter (fun b => b.user_id == i.user_id && b.period == i.period &&
    DateT.dle i.start_date b.end_date && DateT.dle b.start_date i.end_date)

/-- Embeds the analytics expense query before grouping: APPROVED expenses of
the user dated inside the requested range (inclusive). -/
def analyticsExpenses (s : Store) (i : AnalyticsInput) : List Expense :=
  s.expenses.filter (fun e => e.user_id == i.user_id && e.status == Status.APPROVED &&
    DateT.dle i.start_date e.expense_date && DateT.dle e.expense_date i.end_date)

/-- Embeds SQL group-by on category_id with sum(amount): one pair per distinct
category key of the list (the null key forms its own group). -/
def expenseGroups (l : List Expense) : List (Option Nat × ℚ) :=
  ((l.map Expense.category_id).dedup).map
    (fun c => (c, sumAmounts (l.filter (fun e => e.category_id == c))))

/-- Zero-pads a number to two digits, as padStart with width 2 does. -/
def pad2 (n : Nat) : String :=
  if n < 10 then "0" ++ toString n else toString n

/-- The single spending_trend key: the start date's year and zero-padded
month, joined by a dash (the template literal in the handler). -/
def analyticsTrendKey (d : DateT) : String :=
  toString d.y ++ "-" ++ pad2 d.m

/-- The advice string pushed when utilization exceeds 90. -/
def reduceAdvice : String := "Consider reducing spending or increasing budget allocation"

/-- The advice string pushed when utilization is under 50. -/
def increaseAdvice : String := "You have room to increase spending within your budget"

/-- The arithmetic getBudgetAnalytics performs on its two query results. -/
def analyticsCore (i : AnalyticsInput) (budgets : List Budget)
    (groups : List (Option Nat × ℚ)) : BudgetAnalyticsResult :=
  let total_budgeted := budgetAmountSum budgets
  let total_spent := (groups.map Prod.snd).sum
  let budget_utilization :=
    if total_budgeted > 0 then total_spent / total_budgeted * 100 else 0
  { budget_utilization := budget_utilization
    category_breakdown := groups.map (fun g =>
      ⟨g.1, g.2, if total_spent > 0 then g.2 / total_spent * 100 else 0⟩)
    spending_trend := [⟨analyticsTrendKey i.start_date, total_spent⟩]
    recommendations :=
      (if budget_utilization > 90 then [reduceAdvice] else []) ++
      (if budget_utilization < 50 then [increaseAdvice] else []) }

/-- getBudgetAnalytics: matched budgets, grouped in-range APPROVED expenses,
and the derived utilization, breakdown, trend and recommendations. -/
def getBudgetAnalytics (s : Store) (i : AnalyticsInput) : BudgetAnalyticsResult :=
  analyticsCore i (analyticsBudgets s i) (expenseGroups (analyticsExpenses s i))

lemma expenseGroups_sum (l : List Expense) :
    ((expenseGroups l).map Prod.snd).sum = sumAmounts l := by
  unfold expenseGroups
  rw [List.map_map]
  have : (Prod.snd ∘ fun c : Option Nat =>
      (c, sumAmounts (l.filter (fun e => e.category_id == c)))) =
      fun c => sumAmounts (l.filter (fun e => e.category_id == c)) := rfl
  rw [this]
  exact fiber_sum Expense.category_id _ (List.nodup_dedup _) l
    (fun e he => List.mem_dedup.mpr (List.mem_map_of_mem Expense.category_id he))

lemma getBudgetAnalytics_recommendations (s : Store) (i : AnalyticsInput) :
    (getBudgetAnalytics s i).recommendations =
      (if (getBudgetAnalytics s i).budget_utilization > 90 then [reduceAdvice] else []) ++
      (if (getBudgetAnalytics s i).budget_utilization < 50 then [increaseAdvice] else []) := rfl

lemma advice_strings_distinct : reduceAdvice ≠ increaseAdvice := by decide

/-- Claim C3: getBudgetAnalytics selects exactly the user's budgets of the
requested period whose window overlaps the range, and the user's APPROVED
expenses dated inside the range; utilization is 0 for a zero budget total and
(total_spent / total_budgeted) * 100 otherwise; spending_trend is the single
entry keyed by the start date's year and zero-padded month carrying the whole
total_spent; and the recommendation list holds the reduce-spending string iff
utilization > 90 and the room-to-increase string iff utilization < 50, with
nothing else. -/
theorem C3_getBudgetAnalytics_spec (s : Store) (i : AnalyticsInput)
    (hpos : ∀ b ∈ s.budgets, 0 ≤ b.amount) :
    (∀ b, b ∈ analyticsBudgets s i ↔ b ∈ s.budgets ∧ b.user_id = i.user_id ∧
      b.period = i.period ∧ DateT.dle i.start_date b.end_date = true ∧
      DateT.dle b.start_date i.end_date = true) ∧
    (∀ e, e ∈ analyticsExpenses s i ↔ e ∈ s.expenses ∧ e.user_id = i.user_id ∧
      e.status = Status.APPROVED ∧ DateT.dle i.start_date e.expense_date = true ∧
      DateT.dle e.expense_date i.end_date = true) ∧
    (budgetAmountSum (analyticsBudgets s i) = 0 →
      (getBudgetAnalytics s i).budget_utilization = 0) ∧
    (budgetAmountSum (analyticsBudgets s i) ≠ 0 →
      (getBudgetAnalytics s i).budget_utilization =
        sumAmounts (analyticsExpenses s i) / budgetAmountSum (analyticsBudgets s i) * 100) ∧
    (getBudgetAnalytics s i).spending_trend =
      [⟨toString i.start_date.y ++ "-" ++ pad2 i.start_date.m,
        sumAmounts (analyticsExpenses s i)⟩] ∧
    (reduceAdvice ∈ (getBudgetAnalytics s i).recommendations ↔
      (getBudgetAnalytics s i).budget_utilization > 90) ∧
    (increaseAdvice ∈ (getBudgetAnalytics s i).recommendations ↔
      (getBudgetAnalytics s i).budget_utilization < 50) ∧
    (∀ r ∈ (getBudgetAnalytics s i).recommendations,
      r = reduceAdvice ∨ r = increaseAdvice) := by
  have hne := advice_strings_distinct
  refine ⟨?_, ?_, ?_, ?_, ?_, ?_, ?_, ?_⟩
  · intro b
    simp [analyticsBudgets, List.mem_filter, and_assoc]
  · intro e
    simp [analyticsExpenses, List.mem_filter, and_assoc]
  · intro h
    show (if budgetAmountSum (analyticsBudgets s i) > 0 then _ else 0) = 0
    rw [h]
    simp
  · intro h
    have hb' : ∀ b ∈ analyticsBudgets s i, 0 ≤ b.amount :=
      fun b hb => hpos b (List.mem_filter.mp hb).1
    have hpos' := budgetAmountSum_pos _ hb' h
    show (if budgetAmountSum (analyticsBudgets s i) > 0 then
        ((expenseGroups (analyticsExpenses s i)).map Prod.snd).sum /
          budgetAmountSum (analyticsBudgets s i) * 100 else 0) = _
    rw [if_pos hpos', expenseGroups_sum]
  · show [(⟨analyticsTrendKey i.start_date,
        ((expenseGroups (analyticsExpenses s i)).map Prod.snd).sum⟩ : TrendPoint)] = _
    rw [expenseGroups_sum]
    rfl
  · rw [getBudgetAnalytics_recommendations]
    by_cases h90 : (getBudgetAnalytics s i).budget_utilization > 90 <;>
      by_cases h50 : (getBudgetAnalytics s i).budget_utilization < 50 <;>
      simp [h90, h50, hne]
  · rw [getBudgetAnalytics_recommendations]
    by_cases h90 : (getBudgetAnalytics s i).budget_utilization > 90 <;>
      by_cases h50 : (getBudgetAnalytics s i).budget_utilization < 50 <;>
      simp [h90, h50, Ne.symm hne]
  · intro r hr
    rw [getBudgetAnalytics_recommendations] at hr
    rcases List.mem_append.mp hr with h | h
    · left
      split at h <;> simp_all
    · right
      split at h <;> simp_all

/-- A sample store for the analytics scenario: two January 2024 MONTHLY
budgets totaling 1500 and one APPROVED expense of 300 inside the range. -/
def analyticsStore : Store :=
  ⟨[1], [⟨1, "Food"⟩],
   [⟨1, 1, some 1, 1000, Period.MONTHLY, ⟨2024, 1, 1⟩, ⟨2024, 1, 31⟩, 80⟩,
    ⟨2, 1, none, 500, Period.MONTHLY, ⟨2024, 1, 1⟩, ⟨2024, 1, 31⟩, 80⟩],
   [⟨1, 1, some 1, 300, Status.APPROVED, ⟨2024, 1, 15⟩, 5⟩]⟩

/-- The analytics request for January 2024 used by the C3 witness. -/
def analyticsInput : AnalyticsInput :=
  ⟨1, Period.MONTHLY, ⟨2024, 1, 1⟩, ⟨2024, 1, 31⟩⟩

/-- Witness for C3: with 1500 budgeted and 300 spent the utilization formula
applies (total is nonzero) and the room-to-increase advice is emitted. -/
theorem C3_witness :
    (∀ b ∈ analyticsStore.budgets, 0 ≤ b.amount) ∧
    budgetAmountSum (analyticsBudgets analyticsStore analyticsInput) ≠ 0 ∧
    (getBudgetAnalytics analyticsStore analyticsInput).budget_utilization =
      sumAmounts (analyticsExpenses analyticsStore analyticsInput) /
        budgetAmountSum (analyticsBudgets analyticsStore analyticsInput) * 100 ∧
    increaseAdvice ∈ (getBudgetAnalytics analyticsStore analyticsInput).recommendations := by
  have hpos : ∀ b ∈ analyticsStore.budgets, 0 ≤ b.amount := by
    intro b hb
    simp only [analyticsStore, List.mem_cons, List.not_mem_nil, or_false] at hb
    rcases hb with rfl | rfl <;> norm_num
  have h := C3_getBudgetAnalytics_spec analyticsStore analyticsInput hpos
  have hbsum : budgetAmountSum (analyticsBudgets analyticsStore analyticsInput) = 1500 := by
    simp [analyticsBudgets, analyticsStore, analyticsInput, DateT.dle, budgetAmountSum]
    norm_num
  have hesum : sumAmounts (analyticsExpenses analyticsStore analyticsInput) = 300 := by
    simp [analyticsExpenses, analyticsStore, analyticsInput, DateT.dle, sumAmounts]
  have hNZ : budgetAmountSum (analyticsBudgets analyticsStore analyticsInput) ≠ 0 := by
    rw [hbsum]
    norm_num
  have hutil := h.2.2.2.1 hNZ
  refine ⟨hpos, hNZ, hutil, ?_⟩
  apply h.2.2.2.2.2.2.1.mpr
  rw [hutil, hbsum, hesum]
  norm_num

/-- One category_breakdown entry of getDashboardStats (built by joining from
the categories table, so it carries a name, not an id). -/
structure CategoryBreakdown where
  category_name : String
  amount_spent : ℚ
  percentage : ℚ
  deriving DecidableEq, Repr

/-- One monthly_trend entry of getDashboardStats. -/
structure MonthPoint where
  month : String
  amount : ℚ
  deriving DecidableEq, Repr

/-- The record returned by getDashboardStats. -/
structure DashboardStats where
  total_expenses : Nat
  total_amount_spent : ℚ
  budget_usage_percentage : ℚ
  category_breakdown : List CategoryBreakdown
  monthly_trend : List MonthPoint
  recent_expenses : List Expense
  deriving DecidableEq, Repr

/-- Rounding to 2 decimal places the way Math.round(x * 100) / 100 does
(half rounds up). -/
def round2 (x : ℚ) : ℚ := ((⌊x * 100 + 1 / 2⌋ : ℤ) : ℚ) / 100

/-- Zero-pads a year to four digits, as to_char(date, 'YYYY') does. -/
def pad4 (n : Nat) : String :=
  if n < 10 then "000" ++ toString n
  else if n < 100 then "00" ++ toString n
  else if n < 1000 then "0" ++ toString n
  else toString n

/-- The to_char(expense_date, 'YYYY-MM') key the monthly-trend query groups
and orders by. -/
def monthKey (d : DateT) : String := pad4 d.y ++ "-" ++ pad2 d.m

/-- Embeds the monthly-trend query: group the rows by month key, sum each
group, order ascending by key. -/
def monthlyRows (l : List Expense) : List (String × ℚ) :=
  (List.insertionSort (· ≤ ·) ((l.map (fun e => monthKey e.expense_date)).dedup)).map
    (fun k => (k, sumAmounts (l.filter (fun e => monthKey e.expense_date == k))))

/-- Embeds the category-breakdown query: left-join categories against the
user's expenses, sum per category, and keep rows with a positive sum (the
having clause; a left-join row with no expenses sums to 0 and is dropped). -/
def categoryRows (s : Store) (u : Nat) : List (String × ℚ) :=
  (s.categories.map (fun c =>
    (c.name,
      sumAmounts ((userExpenses s u).filter (fun e => e.category_id == some c.id))))).filter
    (fun r => decide (r.2 > 0))

/-- The order-by-created_at-descending relation of the recent-expenses query. -/
def recentRel (a b : Expense) : Prop := b.created_at ≤ a.created_at

instance : DecidableRel recentRel := fun a b => Nat.decLe b.created_at a.created_at

instance : IsTotal Expense recentRel := ⟨fun a b => le_total b.created_at a.created_at⟩

instance : IsTrans Expense recentRel := ⟨fun _ _ _ h1 h2 => le_trans h2 h1⟩

/-- Embeds the recent-expenses query: the user's expenses ordered by
created_at descending, limited to 5. -/
def recentExpenses (s : Store) (u : Nat) : List Expense :=
  (List.insertionSort recentRel (userExpenses s u)).take 5

/-- The arithmetic getDashboardStats performs on its five query results. -/
def dashCore (cnt : Nat) (amt tb : ℚ) (catRows monthRows : List (String × ℚ))
    (recent : List Expense) : DashboardStats :=
  { total_expenses := cnt
    total_amount_spent := amt
    budget_usage_percentage := round2 (if tb > 0 then amt / tb * 100 else 0)
    category_breakdown := catRows.map (fun r =>
      ⟨r.1, r.2, if amt > 0 then r.2 / amt * 100 else 0⟩)
    monthly_trend := monthRows.map (fun r => ⟨r.1, r.2⟩)
    recent_expenses := recent }

/-- getDashboardStats: counts and sums over ALL of the user's expenses
(every status), guarded rounded budget usage, category breakdown, monthly
trend and the five most recent expenses. The clock parameter mirrors the
handler reading the current date; none of its derived values reaches any
query or output. -/
def getDashboardStats (now : DateT) (s : Store) (u : Nat) : DashboardStats :=
  dashCore (userExpenses s u).length (sumAmounts (userExpenses s u))
    (budgetAmountSum (getBudgets s u)) (categoryRows s u)
    (monthlyRows (userExpenses s u)) (recentExpenses s u)

lemma round2_zero : round2 0 = 0 := by
  norm_num [round2]

/-- Claim C4: total_expenses counts ALL of the user's expenses regardless of
status, total_amount_spent sums ALL of them regardless of status, and
budget_usage_percentage is 0 when the user's summed budget amount is 0 and
otherwise (total_amount_spent / total_budget) * 100 rounded to 2 decimals. -/
theorem C4_getDashboardStats_spec (now : DateT) (s : Store) (u : Nat)
    (hpos : ∀ b ∈ s.budgets, 0 ≤ b.amount) :
    (∀ e, e ∈ userExpenses s u ↔ e ∈ s.expenses ∧ e.user_id = u) ∧
    (getDashboardStats now s u).total_expenses = (userExpenses s u).length ∧
    (getDashboardStats now s u).total_amount_spent = sumAmounts (userExpenses s u) ∧
    (budgetAmountSum (getBudgets s u) = 0 →
      (getDashboardStats now s u).budget_usage_percentage = 0) ∧
    (budgetAmountSum (getBudgets s u) ≠ 0 →
      (getDashboardStats now s u).budget_usage_percentage =
        round2 (sumAmounts (userExpenses s u) / budgetAmountSum (getBudgets s u) * 100)) := by
  refine ⟨?_, rfl, rfl, ?_, ?_⟩
  · intro e
    simp [userExpenses, List.mem_filter]
  · intro h
    show round2 (if budgetAmountSum (getBudgets s u) > 0 then _ else 0) = 0
    rw [h, if_neg (by norm_num)]
    exact round2_zero
  · intro h
    have hb' : ∀ b ∈ getBudgets s u, 0 ≤ b.amount :=
      fun b hb => hpos b (List.mem_filter.mp hb).1
    have hpos' := budgetAmountSum_pos _ hb' h
    show round2 (if budgetAmountSum (getBudgets s u) > 0 then
        sumAmounts (userExpenses s u) / budgetAmountSum (getBudgets s u) * 100 else 0) = _
    rw [if_pos hpos']

/-- A sample store for the dashboard: one budget of 1000 and two expenses of
300 (PENDING) and 100 (APPROVED), so the dashboard totals count both. -/
def dashStore : Store :=
  ⟨[1], [⟨1, "Food"⟩, ⟨2, "Transport"⟩],
   [⟨1, 1, none, 1000, Period.MONTHLY, ⟨2024, 1, 1⟩, ⟨2024, 1, 31⟩, 80⟩],
   [⟨1, 1, some 1, 300, Status.PENDING, ⟨2024, 1, 10⟩, 1⟩,
    ⟨2, 1, some 2, 100, Status.APPROVED, ⟨2024, 2, 5⟩, 2⟩]⟩

/-- Witness for C4: both expenses (one PENDING, one APPROVED) are counted, the
total is 400, and budget usage is the rounded 40 percent of the 1000 budget. -/
theorem C4_witness :
    (∀ b ∈ dashStore.budgets, 0 ≤ b.amount) ∧
    budgetAmountSum (getBudgets dashStore 1) ≠ 0 ∧
    (getDashboardStats ⟨2024, 3, 1⟩ dashStore 1).total_expenses = 2 ∧
    (getDashboardStats ⟨2024, 3, 1⟩ dashStore 1).total_amount_spent = 400 ∧
    (getDashboardStats ⟨2024, 3, 1⟩ dashStore 1).budget_usage_percentage = 40 := by
  have hpos : ∀ b ∈ dashStore.budgets, 0 ≤ b.amount := by
    intro b hb
    simp only [dashStore, List.mem_cons, List.not_mem_nil, or_false] at hb
    rcases hb with rfl <;> norm_num
  have h := C4_getDashboardStats_spec ⟨2024, 3, 1⟩ dashStore 1 hpos
  have hbsum : budgetAmountSum (getBudgets dashStore 1) = 1000 := by
    simp [getBudgets, dashStore, budgetAmountSum]
  have hcount : (userExpenses dashStore 1).length = 2 := by
    simp [userExpenses, dashStore]
  have hesum : sumAmounts (userExpenses dashStore 1) = 400 := by
    simp [userExpenses, dashStore, sumAmounts]
    norm_num
  have hNZ : budgetAmountSum (getBudgets dashStore 1) ≠ 0 := by
    rw [hbsum]
    norm_num
  refine ⟨hpos, hNZ, ?_, ?_, ?_⟩
  · rw [h.2.1, hcount]
  · rw [h.2.2.1, hesum]
  · rw [h.2.2.2.2 hNZ, hesum, hbsum]
    norm_num [round2]

lemma dashboard_monthly_trend (now : DateT) (s : Store) (u : Nat) :
    (getDashboardStats now s u).monthly_trend =
      (List.insertionSort (· ≤ ·)
          (((userExpenses s u).map (fun e => monthKey e.expense_date)).dedup)).map
        (fun k => ⟨k, sumAmounts ((userExpenses s u).filter
          (fun e => monthKey e.expense_date == k))⟩) := by
  show (monthlyRows (userExpenses s u)).map _ = _
  rw [monthlyRows, List.map_map]
  rfl

/-- Claim C5: the dashboard monthly trend has exactly one entry per YYYY-MM
key occurring among the user's expenses of any status, each carrying the sum
of that month's amounts, ordered ascending by key; and recent_expenses holds
min(5, n) of the user's n expenses, most recently created first. -/
theorem C5_dashboard_trend_recent_spec (now : DateT) (s : Store) (u : Nat) :
    ((getDashboardStats now s u).monthly_trend.map MonthPoint.month).Nodup ∧
    (∀ k, k ∈ (getDashboardStats now s u).monthly_trend.map MonthPoint.month ↔
      k ∈ (userExpenses s u).map (fun e => monthKey e.expense_date)) ∧
    List.Chain' (fun a b : MonthPoint => a.month ≤ b.month)
      (getDashboardStats now s u).monthly_trend ∧
    (∀ p ∈ (getDashboardStats now s u).monthly_trend,
      p.amount = sumAmounts ((userExpenses s u).filter
        (fun e => monthKey e.expense_date == p.month))) ∧
    (getDashboardStats now s u).recent_expenses.length = min 5 (userExpenses s u).length ∧
    (∀ e ∈ (getDashboardStats now s u).recent_expenses, e ∈ userExpenses s u) ∧
    List.Chain' (fun a b : Expense => b.created_at ≤ a.created_at)
      (getDashboardStats now s u).recent_expenses := by
  have hkeys : (getDashboardStats now s u).monthly_trend.map MonthPoint.month =
      List.insertionSort (· ≤ ·)
        (((userExpenses s u).map (fun e => monthKey e.expense_date)).dedup) := by
    rw [dashboard_monthly_trend, List.map_map]
    exact List.map_id _
  have hperm := List.perm_insertionSort (α := String) (· ≤ ·)
    (((userExpenses s u).map (fun e => monthKey e.expense_date)).dedup)
  refine ⟨?_, ?_, ?_, ?_, ?_, ?_, ?_⟩
  · rw [hkeys]
    exact hperm.nodup_iff.mpr (List.nodup_dedup _)
  · intro k
    rw [hkeys, hperm.mem_iff, List.mem_dedup]
  · rw [dashboard_monthly_trend]
    apply List.Pairwise.chain'
    rw [List.pairwise_map]
    exact List.sorted_insertionSort (· ≤ ·) _
  · intro p hp
    rw [dashboard_monthly_trend] at hp
    obtain ⟨k, _, rfl⟩ := List.mem_map.mp hp
    rfl
  · show ((List.insertionSort recentRel (userExpenses s u)).take 5).length = _
    rw [List.length_take, (List.perm_insertionSort recentRel (userExpenses s u)).length_eq]
  · intro e he
    have h1 : e ∈ List.insertionSort recentRel (userExpenses s u) :=
      List.take_subset 5 _ he
    exact (List.perm_insertionSort recentRel (userExpenses s u)).subset h1
  · show List.Chain' _ ((List.insertionSort recentRel (userExpenses s u)).take 5)
    apply List.Pairwise.chain'
    have hsorted : (List.insertionSort recentRel (userExpenses s u)).Pairwise recentRel :=
      List.sorted_insertionSort recentRel (userExpenses s u)
    exact hsorted.sublist (List.take_sublist 5 _)

lemma budgetWindowSpent_eq (s : Store) (u : Nat) (b : Budget) :
    budgetWindowSpent s u b = sumAmounts ((approvedExpenses s u).filter (fun e =>
      DateT.dle b.start_date e.expense_date && DateT.dle e.expense_date b.end_date &&
      catCond b e)) := by
  unfold budgetWindowSpent approvedExpenses
  rw [List.filter_filter]
  apply congrArg
  apply List.filter_congr
  intro e _
  cases e.user_id == u <;> cases e.status == Status.APPROVED <;>
    cases DateT.dle b.start_date e.expense_date <;>
    cases DateT.dle e.expense_date b.end_date <;> cases catCond b e <;> rfl

/-- Claim C6: two stores agreeing on a user's budgets and APPROVED expenses
(however much their PENDING and REJECTED expenses differ) give the same
total_spent, remaining and percentage_used in getBudgetOverview and the very
same alert list, spends and usages in checkBudgetAlerts. -/
theorem C6_nonapproved_noninterference (s₁ s₂ : Store) (u : Nat)
    (hb : getBudgets s₁ u = getBudgets s₂ u)
    (he : approvedExpenses s₁ u = approvedExpenses s₂ u) :
    (getBudgetOverview s₁ u).total_spent = (getBudgetOverview s₂ u).total_spent ∧
    (getBudgetOverview s₁ u).remaining = (getBudgetOverview s₂ u).remaining ∧
    (getBudgetOverview s₁ u).percentage_used = (getBudgetOverview s₂ u).percentage_used ∧
    checkBudgetAlerts s₁ u = checkBudgetAlerts s₂ u := by
  have hov : getBudgetOverview s₁ u = getBudgetOverview s₂ u := by
    unfold getBudgetOverview
    rw [hb, he]
  refine ⟨by rw [hov], by rw [hov], by rw [hov], ?_⟩
  unfold checkBudgetAlerts
  rw [hb]
  have hfun : (fun b => alertStep b (budgetWindowSpent s₁ u b)) =
      (fun b => alertStep b (budgetWindowSpent s₂ u b)) := by
    funext b
    rw [budgetWindowSpent_eq, budgetWindowSpent_eq, he]
  rw [hfun]

/-- A noninterference sample store: one budget and one APPROVED expense. -/
def niStoreA : Store :=
  ⟨[1], [],
   [⟨1, 1, none, 1000, Period.MONTHLY, ⟨2024, 1, 1⟩, ⟨2024, 1, 31⟩, 80⟩],
   [⟨1, 1, none, 900, Status.APPROVED, ⟨2024, 1, 10⟩, 1⟩]⟩

/-- The same store with an extra PENDING expense of 999999 for the user. -/
def niStoreB : Store :=
  ⟨[1], [],
   [⟨1, 1, none, 1000, Period.MONTHLY, ⟨2024, 1, 1⟩, ⟨2024, 1, 31⟩, 80⟩],
   [⟨1, 1, none, 900, Status.APPROVED, ⟨2024, 1, 10⟩, 1⟩,
    ⟨2, 1, none, 999999, Status.PENDING, ⟨2024, 1, 11⟩, 2⟩]⟩

/-- Witness for C6: adding a PENDING expense of 999999 changes neither the
overview spend figures nor the alert list. -/
theorem C6_witness :
    (getBudgets niStoreA 1 = getBudgets niStoreB 1 ∧
      approvedExpenses niStoreA 1 = approvedExpenses niStoreB 1) ∧
    (getBudgetOverview niStoreA 1).total_spent = (getBudgetOverview niStoreB 1).total_spent ∧
    (getBudgetOverview niStoreA 1).percentage_used =
      (getBudgetOverview niStoreB 1).percentage_used ∧
    checkBudgetAlerts niStoreA 1 = checkBudgetAlerts niStoreB 1 := by
  have hb : getBudgets niStoreA 1 = getBudgets niStoreB 1 := by
    simp [getBudgets, niStoreA, niStoreB]
  have he : approvedExpenses niStoreA 1 = approvedExpenses niStoreB 1 := by
    simp [approvedExpenses, niStoreA, niStoreB]
  have h := C6_nonapproved_noninterference niStoreA niStoreB 1 hb he
  exact ⟨⟨hb, he⟩, h.1, h.2.2.1, h.2.2.2⟩

/-- Claim C7: each aggregator is a pure function of the store (two calls on
the same state agree), and the dashboard's result does not depend on the
clock value the handler reads. -/
theorem C7_aggregators_deterministic (s : Store) (u : Nat) (i : AnalyticsInput)
    (now₁ now₂ : DateT) :
    getBudgetOverview s u = getBudgetOverview s u ∧
    getBudgetAnalytics s i = getBudgetAnalytics s i ∧
    checkBudgetAlerts s u = checkBudgetAlerts s u ∧
    getDashboardStats now₁ s u = getDashboardStats now₂ s u :=
  ⟨rfl, rfl, rfl, rfl⟩

/-- The storage interface the handlers call, one field per SQL query they
issue; every access may fail with a storage error of type ε. -/
structure DBQueries (ε : Type) where
  qUserBudgets : Nat → Except ε (List Budget)
  qApprovedSum : Nat → Except ε ℚ
  qWindowSum : Nat → Budget → Except ε ℚ
  qAnalyticsBudgets : AnalyticsInput → Except ε (List Budget)
  qAnalyticsGroups : AnalyticsInput → Except ε (List (Option Nat × ℚ))
  qExpenseStats : Nat → Except ε (Nat × ℚ)
  qBudgetSum : Nat → Except ε ℚ
  qCategoryRows : Nat → Except ε (List (String × ℚ))
  qMonthlyRows : Nat → Except ε (List (String × ℚ))
  qRecentRows : Nat → Except ε (List Expense)

/-- getBudgetOverview threaded through fallible storage: two queries in
sequence, then the pure arithmetic; a failed await rethrows immediately. -/
def getBudgetOverviewE {ε : Type} (d : DBQueries ε) (u : Nat) :
    Except ε BudgetOverview :=
  match d.qUserBudgets u with
  | .error e => .error e
  | .ok budgets =>
      match d.qApprovedSum u with
      | .error e => .error e
      | .ok spent => .ok (overviewCore budgets spent)

/-- The alert loop with a fallible per-budget query: the first failing query
aborts the whole loop, exactly as a thrown await does in the handler. -/
def alertsLoop {ε : Type} (d : DBQueries ε) (u : Nat) :
    List Budget → Except ε (List BudgetAlert)
  | [] => .ok []
  | b :: rest =>
      match d.qWindowSum u b with
      | .error e => .error e
      | .ok spent =>
          match alertsLoop d u rest with
          | .error e => .error e
          | .ok tail =>
              match alertStep b spent with
              | some a => .ok (a :: tail)
              | none => .ok tail

/-- checkBudgetAlerts threaded through fallible storage. -/
def checkBudgetAlertsE {ε : Type} (d : DBQueries ε) (u : Nat) :
    Except ε (List BudgetAlert) :=
  match d.qUserBudgets u with
  | .error e => .error e
  | .ok budgets => alertsLoop d u budgets

/-- getBudgetAnalytics threaded through fallible storage. -/
def getBudgetAnalyticsE {ε : Type} (d : DBQueries ε) (i : AnalyticsInput) :
    Except ε BudgetAnalyticsResult :=
  match d.qAnalyticsBudgets i with
  | .error e => .error e
  | .ok budgets =>
      match d.qAnalyticsGroups i with
      | .error e => .error e
      | .ok groups => .ok (analyticsCore i budgets groups)

/-- getDashboardStats threaded through fallible storage: five queries in
sequence, then the pure arithmetic. -/
def getDashboardStatsE {ε : Type} (d : DBQueries ε) (u : Nat) :
    Except ε DashboardStats :=
  match d.qExpenseStats u with
  | .error e => .error e
  | .ok stats =>
      match d.qBudgetSum u with
      | .error e => .error e
      | .ok tb =>
          match d.qCategoryRows u with
          | .error e => .error e
          | .ok catRows =>
              match d.qMonthlyRows u with
              | .error e => .error e
              | .ok monthRows =>
                  match d.qRecentRows u with
                  | .error e => .error e
                  | .ok recent => .ok (dashCore stats.1 stats.2 tb catRows monthRows recent)

/-- The always-succeeding storage a healthy database provides: every query
returns the corresponding rows of the store. -/
def Store.queries (s : Store) (ε : Type) : DBQueries ε where
  qUserBudgets := fun u => .ok (getBudgets s u)
  qApprovedSum := fun u => .ok (sumAmounts (approvedExpenses s u))
  qWindowSum := fun u b => .ok (budgetWindowSpent s u b)
  qAnalyticsBudgets := fun i => .ok (analyticsBudgets s i)
  qAnalyticsGroups := fun i => .ok (expenseGroups (analyticsExpenses s i))
  qExpenseStats := fun u => .ok ((userExpenses s u).length, sumAmounts (userExpenses s u))
  qBudgetSum := fun u => .ok (budgetAmountSum (getBudgets s u))
  qCategoryRows := fun u => .ok (categoryRows s u)
  qMonthlyRows := fun u => .ok (monthlyRows (userExpenses s u))
  qRecentRows := fun u => .ok (recentExpenses s u)

lemma getBudgetOverviewE_pure {ε : Type} (s : Store) (u : Nat) :
    getBudgetOverviewE (s.queries ε) u = .ok (getBudgetOverview s u) := rfl

lemma alertsLoop_pure {ε : Type} (s : Store) (u : Nat) (bs : List Budget) :
    alertsLoop (s.queries ε) u bs =
      .ok (bs.filterMap (fun b => alertStep b (budgetWindowSpent s u b))) := by
  induction bs with
  | nil => rfl
  | cons b rest ih =>
      have hq : (s.queries ε).qWindowSum u b = .ok (budgetWindowSpent s u b) := rfl
      rw [List.filterMap_cons]
      simp only [alertsLoop, hq, ih]
      cases alertStep b (budgetWindowSpent s u b) <;> rfl

lemma checkBudgetAlertsE_pure {ε : Type} (s : Store) (u : Nat) :
    checkBudgetAlertsE (s.queries ε) u = .ok (checkBudgetAlerts s u) := by
  show alertsLoop (s.queries ε) u (getBudgets s u) = _
  rw [alertsLoop_pure]
  rfl

lemma getBudgetAnalyticsE_pure {ε : Type} (s : Store) (i : AnalyticsInput) :
    getBudgetAnalyticsE (s.queries ε) i = .ok (getBudgetAnalytics s i) := rfl

lemma getDashboardStatsE_pure {ε : Type} (s : Store) (u : Nat) (now : DateT) :
    getDashboardStatsE (s.queries ε) u = .ok (getDashboardStats now s u) := rfl

lemma alertsLoop_error {ε : Type} (d : DBQueries ε) (u : Nat) (bs : List Budget)
    (hfail : ∃ b ∈ bs, ∃ er : ε, d.qWindowSum u b = .error er) :
    ∃ er : ε, (∃ b ∈ bs, d.qWindowSum u b = .error er) ∧
      alertsLoop d u bs = .error er := by
  induction bs with
  | nil =>
      obtain ⟨b, hb, _⟩ := hfail
      cases hb
  | cons b rest ih =>
      cases hq : d.qWindowSum u b with
      | error er =>
          refine ⟨er, ⟨b, List.mem_cons_self b rest, hq⟩, ?_⟩
          simp [alertsLoop, hq]
      | ok v =>
          have hfail' : ∃ b ∈ rest, ∃ er : ε, d.qWindowSum u b = .error er := by
            obtain ⟨b', hb', er, he⟩ := hfail
            rcases List.mem_cons.mp hb' with rfl | h
            · rw [hq] at he
              cases he
            · exact ⟨b', h, er, he⟩
          obtain ⟨er, ⟨b', hb', he⟩, hloop⟩ := ih hfail'
          refine ⟨er, ⟨b', List.mem_cons_of_mem b hb', he⟩, ?_⟩
          simp [alertsLoop, hq, hloop]

lemma categoryRows_of_no_expenses (s : Store) (u : Nat) (h : userExpenses s u = []) :
    categoryRows s u = [] := by
  unfold categoryRows
  rw [h, List.filter_eq_nil_iff]
  intro r hr
  obtain ⟨c, _, rfl⟩ := List.mem_map.mp hr
  simp [sumAmounts]

lemma getBudgets_unknown (s : Store) (u : Nat) (hu : u ∉ s.users)
    (hfk : ∀ b ∈ s.budgets, b.user_id ∈ s.users) : getBudgets s u = [] := by
  rw [getBudgets, List.filter_eq_nil_iff]
  intro b hb
  simp only [beq_iff_eq]
  intro h
  exact hu (h ▸ hfk b hb)

lemma userExpenses_unknown (s : Store) (u : Nat) (hu : u ∉ s.users)
    (hfk : ∀ x ∈ s.expenses, x.user_id ∈ s.users) : userExpenses s u = [] := by
  rw [userExpenses, List.filter_eq_nil_iff]
  intro x hx
  simp only [beq_iff_eq]
  intro h
  exact hu (h ▸ hfk x hx)

lemma analyticsBudgets_unknown (s : Store) (i : AnalyticsInput)
    (hu : i.user_id ∉ s.users) (hfk : ∀ b ∈ s.budgets, b.user_id ∈ s.users) :
    analyticsBudgets s i = [] := by
  rw [analyticsBudgets, List.filter_eq_nil_iff]
  intro b hb hcontra
  simp only [Bool.and_eq_true, beq_iff_eq] at hcontra
  exact hu (hcontra.1.1.1 ▸ hfk b hb)

lemma analyticsExpenses_unknown (s : Store) (i : AnalyticsInput)
    (hu : i.user_id ∉ s.users) (hfk : ∀ x ∈ s.expenses, x.user_id ∈ s.users) :
    analyticsExpenses s i = [] := by
  rw [analyticsExpenses, List.filter_eq_nil_iff]
  intro x hx hcontra
  simp only [Bool.and_eq_true, beq_iff_eq] at hcontra
  exact hu (hcontra.1.1.1 ▸ hfk x hx)

/-- Claim C8: an id referring to no existing user raises no not-found error in
any of the four aggregators: each returns the same zeroed or empty structure a
data-less user gets; and a storage failure at any query of any aggregator
propagates to the caller unchanged, each call either returning a complete
structure or failing entirely with a query's own error. -/
theorem C8_error_leniency_and_propagation (ε : Type) (s : Store) (u : Nat)
    (i : AnalyticsInput) (hu : u ∉ s.users)
    (hfkB : ∀ b ∈ s.budgets, b.user_id ∈ s.users)
    (hfkE : ∀ x ∈ s.expenses, x.user_id ∈ s.users)
    (hiu : i.user_id = u) :
    getBudgetOverviewE (s.queries ε) u = .ok ⟨[], 0, 0, 0, 0⟩ ∧
    checkBudgetAlertsE (s.queries ε) u = .ok [] ∧
    getBudgetAnalyticsE (s.queries ε) i =
      .ok ⟨0, [], [⟨analyticsTrendKey i.start_date, 0⟩], [increaseAdvice]⟩ ∧
    getDashboardStatsE (s.queries ε) u = .ok ⟨0, 0, 0, [], [], []⟩ ∧
    (∀ (d : DBQueries ε) (e : ε), d.qUserBudgets u = .error e →
      getBudgetOverviewE d u = .error e ∧ checkBudgetAlertsE d u = .error e) ∧
    (∀ (d : DBQueries ε) (e : ε) (bs : List Budget), d.qUserBudgets u = .ok bs →
      d.qApprovedSum u = .error e → getBudgetOverviewE d u = .error e) ∧
    (∀ (d : DBQueries ε) (bs : List Budget), d.qUserBudgets u = .ok bs →
      (∃ b ∈ bs, ∃ er : ε, d.qWindowSum u b = .error er) →
      ∃ er : ε, (∃ b ∈ bs, d.qWindowSum u b = .error er) ∧
        checkBudgetAlertsE d u = .error er) ∧
    (∀ (d : DBQueries ε) (e : ε), d.qAnalyticsBudgets i = .error e →
      getBudgetAnalyticsE d i = .error e) ∧
    (∀ (d : DBQueries ε) (e : ε) (bs : List Budget), d.qAnalyticsBudgets i = .ok bs →
      d.qAnalyticsGroups i = .error e → getBudgetAnalyticsE d i = .error e) ∧
    (∀ (d : DBQueries ε) (e : ε), d.qExpenseStats u = .error e →
      getDashboardStatsE d u = .error e) ∧
    (∀ (d : DBQueries ε) (e : ε) (st : Nat × ℚ), d.qExpenseStats u = .ok st →
      d.qBudgetSum u = .error e → getDashboardStatsE d u = .error e) ∧
    (∀ (d : DBQueries ε) (e : ε) (st : Nat × ℚ) (tb : ℚ), d.qExpenseStats u = .ok st →
      d.qBudgetSum u = .ok tb → d.qCategoryRows u = .error e →
      getDashboardStatsE d u = .error e) ∧
    (∀ (d : DBQueries ε) (e : ε) (st : Nat × ℚ) (tb : ℚ) (cr : List (String × ℚ)),
      d.qExpenseStats u = .ok st → d.qBudgetSum u = .ok tb → d.qCategoryRows u = .ok cr →
      d.qMonthlyRows u = .error e → getDashboardStatsE d u = .error e) ∧
    (∀ (d : DBQueries ε) (e : ε) (st : Nat × ℚ) (tb : ℚ) (cr mr : List (String × ℚ)),
      d.qExpenseStats u = .ok st → d.qBudgetSum u = .ok tb → d.qCategoryRows u = .ok cr →
      d.qMonthlyRows u = .ok mr → d.qRecentRows u = .error e →
      getDashboardStatsE d u = .error e) ∧
    (∀ d : DBQueries ε,
      ((∃ r, getBudgetOverviewE d u = .ok r) ∨ (∃ er, getBudgetOverviewE d u = .error er)) ∧
      ((∃ r, checkBudgetAlertsE d u = .ok r) ∨ (∃ er, checkBudgetAlertsE d u = .error er)) ∧
      ((∃ r, getBudgetAnalyticsE d i = .ok r) ∨ (∃ er, getBudgetAnalyticsE d i = .error er)) ∧
      ((∃ r, getDashboardStatsE d u = .ok r) ∨ (∃ er, getDashboardStatsE d u = .error er))) := by
  have hg : getBudgets s u = [] := getBudgets_unknown s u hu hfkB
  have hue : userExpenses s u = [] := userExpenses_unknown s u hu hfkE
  have hae : approvedExpenses s u = [] := approvedExpenses_eq_nil s u hue
  have hab : analyticsBudgets s i = [] := analyticsBudgets_unknown s i (hiu ▸ hu) hfkB
  have haex : analyticsExpenses s i = [] := analyticsExpenses_unknown s i (hiu ▸ hu) hfkE
  refine ⟨?_, ?_, ?_, ?_, ?_, ?_, ?_, ?_, ?_, ?_, ?_, ?_, ?_, ?_, ?_⟩
  · rw [getBudgetOverviewE_pure]
    unfold getBudgetOverview
    rw [hg, hae]
    norm_num [overviewCore, budgetAmountSum, sumAmounts]
  · rw [checkBudgetAlertsE_pure]
    unfold checkBudgetAlerts
    rw [hg]
    rfl
  · rw [getBudgetAnalyticsE_pure]
    unfold getBudgetAnalytics
    rw [hab, haex]
    norm_num [analyticsCore, expenseGroups, budgetAmountSum, sumAmounts, List.dedup_nil]
  · rw [getDashboardStatsE_pure s u ⟨0, 0, 0⟩]
    unfold getDashboardStats recentExpenses monthlyRows
    rw [hg, hue, categoryRows_of_no_expenses s u hue]
    norm_num [dashCore, budgetAmountSum, sumAmounts, round2_zero, List.dedup_nil,
      List.insertionSort]
  · intro d e h
    constructor
    · unfold getBudgetOverviewE
      rw [h]
    · unfold checkBudgetAlertsE
      rw [h]
  · intro d e bs h1 h2
    unfold getBudgetOverviewE
    rw [h1, h2]
  · intro d bs h1 hfail
    obtain ⟨er, hwit, hloop⟩ := alertsLoop_error d u bs hfail
    refine ⟨er, hwit, ?_⟩
    unfold checkBudgetAlertsE
    rw [h1]
    exact hloop
  · intro d e h
    unfold getBudgetAnalyticsE
    rw [h]
  · intro d e bs h1 h2
    unfold getBudgetAnalyticsE
    rw [h1, h2]
  · intro d e h
    unfold getDashboardStatsE
    rw [h]
  · intro d e st h1 h2
    unfold getDashboardStatsE
    rw [h1, h2]
  · intro d e st tb h1 h2 h3
    unfold getDashboardStatsE
    rw [h1, h2, h3]
  · intro d e st tb cr h1 h2 h3 h4
    unfold getDashboardStatsE
    rw [h1, h2, h3, h4]
  · intro d e st tb cr mr h1 h2 h3 h4 h5
    unfold getDashboardStatsE
    rw [h1, h2, h3, h4, h5]
  · intro d
    refine ⟨?_, ?_, ?_, ?_⟩
    · cases h : getBudgetOverviewE d u with
      | ok r => exact Or.inl ⟨r, rfl⟩
      | error er => exact Or.inr ⟨er, rfl⟩
    · cases h : checkBudgetAlertsE d u with
      | ok r => exact Or.inl ⟨r, rfl⟩
      | error er => exact Or.inr ⟨er, rfl⟩
    · cases h : getBudgetAnalyticsE d i with
      | ok r => exact Or.inl ⟨r, rfl⟩
      | error er => exact Or.inr ⟨er, rfl⟩
    · cases h : getDashboardStatsE d u with
      | ok r => exact Or.inl ⟨r, rfl⟩
      | error er => exact Or.inr ⟨er, rfl⟩

/-- The error message of the failing storage stub used by the C8 witness. -/
def dbDownMsg : String := "storage unavailable"

/-- A storage stub whose every query fails with the same error. -/
def downDB : DBQueries String :=
  ⟨fun _ => .error dbDownMsg, fun _ => .error dbDownMsg, fun _ _ => .error dbDownMsg,
   fun _ => .error dbDownMsg, fun _ => .error dbDownMsg, fun _ => .error dbDownMsg,
   fun _ => .error dbDownMsg, fun _ => .error dbDownMsg, fun _ => .error dbDownMsg,
   fun _ => .error dbDownMsg⟩

/-- Witness for C8: user 2 does not exist in the single-user store, yet the
overview and alert calls succeed with zeroed results, while against the
failing storage stub the overview call fails with the stub's own error. -/
theorem C8_witness :
    (2 ∉ emptyUserStore.users ∧
      (∀ b ∈ emptyUserStore.budgets, b.user_id ∈ emptyUserStore.users) ∧
      (∀ x ∈ emptyUserStore.expenses, x.user_id ∈ emptyUserStore.users)) ∧
    getBudgetOverviewE (emptyUserStore.queries String) 2 = .ok ⟨[], 0, 0, 0, 0⟩ ∧
    checkBudgetAlertsE (emptyUserStore.queries String) 2 = .ok [] ∧
    getBudgetOverviewE downDB 2 = .error dbDownMsg := by
  have h1 : (2 : Nat) ∉ emptyUserStore.users := by simp [emptyUserStore]
  have h2 : ∀ b ∈ emptyUserStore.budgets, b.user_id ∈ emptyUserStore.users := by
    intro b hb
    simp [emptyUserStore] at hb
  have h3 : ∀ x ∈ emptyUserStore.expenses, x.user_id ∈ emptyUserStore.users := by
    intro x hx
    simp [emptyUserStore] at hx
  have h := C8_error_leniency_and_propagation String emptyUserStore 2
    ⟨2, Period.MONTHLY, ⟨2024, 1, 1⟩, ⟨2024, 1, 31⟩⟩ h1 h2 h3 rfl
  exact ⟨⟨h1, h2, h3⟩, h.1, h.2.1,
    (h.2.2.2.2.1 downDB dbDownMsg rfl).1⟩

lemma sumAmounts_nonneg (l : List Expense) (h : ∀ e ∈ l, 0 ≤ e.amount) :
    0 ≤ sumAmounts l := by
  apply List.sum_nonneg
  intro x hx
  obtain ⟨e, he, rfl⟩ := List.mem_map.mp hx
  exact h e he

lemma sumAmounts_cons (e : Expense) (l : List Expense) :
    sumAmounts (e :: l) = e.amount + sumAmounts l := by
  simp [sumAmounts]

lemma sumAmounts_filter_split (p : Expense → Bool) (l : List Expense) :
    sumAmounts (l.filter p) + sumAmounts (l.filter (fun e => !p e)) = sumAmounts l := by
  induction l with
  | nil => simp [sumAmounts]
  | cons e t ih =>
      cases h : p e
      · rw [List.filter_cons_of_neg (by simp [h]),
          List.filter_cons_of_pos (by simp [h]), sumAmounts_cons, sumAmounts_cons]
        linarith [ih]
      · rw [List.filter_cons_of_pos (by simp [h]),
          List.filter_cons_of_neg (by simp [h]), sumAmounts_cons, sumAmounts_cons]
        linarith [ih]

lemma filter_pos_sum {α : Type} (l : List (α × ℚ)) (h : ∀ r ∈ l, 0 ≤ r.2) :
    ((l.filter (fun r => decide (r.2 > 0))).map Prod.snd).sum = (l.map Prod.snd).sum := by
  induction l with
  | nil => rfl
  | cons r t ih =>
      have ht : ∀ x ∈ t, 0 ≤ x.2 := fun x hx => h x (List.mem_cons_of_mem r hx)
      by_cases hr : 0 < r.2
      · rw [List.filter_cons_of_pos (by simp [hr]), List.map_cons, List.sum_cons,
          List.map_cons, List.sum_cons, ih ht]
      · have hz : r.2 = 0 :=
          le_antisymm (not_lt.mp hr) (h r (List.mem_cons_self r t))
        rw [List.filter_cons_of_neg (by simp [hr]), List.map_cons, List.sum_cons,
          ih ht, hz, zero_add]

lemma sum_map_div_mul {α : Type} (l : List (α × ℚ)) (T c : ℚ) :
    (l.map (fun r => r.2 / T * c)).sum = (l.map Prod.snd).sum / T * c := by
  induction l with
  | nil => simp
  | cons r t ih =>
      rw [List.map_cons, List.sum_cons, List.map_cons, List.sum_cons, ih,
        add_div, add_mul]

/-- Claim C9: the dashboard category breakdown is built by joining from the
categories table, so uncategorized expenses (null category_id) are counted in
the totals but appear in no breakdown entry; the breakdown amounts sum to the
categorized spend only, strictly less than total_amount_spent (and the
percentage column sums strictly below 100) once an uncategorized expense with
positive amount exists. -/
theorem C9_dashboard_breakdown_uncategorized (now : DateT) (s : Store) (u : Nat)
    (hids : (s.categories.map Category.id).Nodup)
    (hfk : ∀ e ∈ s.expenses, ∀ c : Nat, e.category_id = some c →
      c ∈ s.categories.map Category.id)
    (hamt : ∀ e ∈ s.expenses, 0 ≤ e.amount) :
    ((getDashboardStats now s u).category_breakdown.map CategoryBreakdown.amount_spent).sum
      = sumAmounts ((userExpenses s u).filter (fun e => e.category_id != none)) ∧
    ((∃ e ∈ userExpenses s u, e.category_id = none ∧ 0 < e.amount) →
      ((getDashboardStats now s u).category_breakdown.map CategoryBreakdown.amount_spent).sum
        < (getDashboardStats now s u).total_amount_spent ∧
      ((getDashboardStats now s u).category_breakdown.map CategoryBreakdown.percentage).sum
        < 100) := by
  have hamtU : ∀ e ∈ userExpenses s u, 0 ≤ e.amount :=
    fun e he => hamt e (List.mem_filter.mp he).1
  -- the breakdown amount column is the filtered rows' sum column
  have hamts : ((getDashboardStats now s u).category_breakdown.map
      CategoryBreakdown.amount_spent).sum = ((categoryRows s u).map Prod.snd).sum := by
    show (((categoryRows s u).map _).map CategoryBreakdown.amount_spent).sum = _
    rw [List.map_map]
    rfl
  -- dropping the zero rows of the having clause keeps the sum
  have hrows0 : ∀ r ∈ s.categories.map (fun c =>
      (c.name, sumAmounts ((userExpenses s u).filter (fun e => e.category_id == some c.id)))),
      0 ≤ r.2 := by
    intro r hr
    obtain ⟨c, _, rfl⟩ := List.mem_map.mp hr
    exact sumAmounts_nonneg _ (fun e he => hamtU e (List.mem_filter.mp he).1)
  have hhaving : ((categoryRows s u).map Prod.snd).sum =
      ((s.categories.map (fun c => (c.name, sumAmounts ((userExpenses s u).filter
        (fun e => e.category_id == some c.id))))).map Prod.snd).sum :=
    filter_pos_sum _ hrows0
  -- per-category fibers over all user expenses coincide with fibers over the
  -- categorized ones
  have hfib : ∀ c : Category,
      (userExpenses s u).filter (fun e => e.category_id == some c.id) =
      ((userExpenses s u).filter (fun e => e.category_id != none)).filter
        (fun e => e.category_id == some c.id) := by
    intro c
    rw [List.filter_filter]
    apply List.filter_congr
    intro e _
    cases e.category_id <;> simp
  -- the categorized fibers partition the categorized spend
  have hpart : ((s.categories.map (fun c => (c.name, sumAmounts ((userExpenses s u).filter
        (fun e => e.category_id == some c.id))))).map Prod.snd).sum =
      sumAmounts ((userExpenses s u).filter (fun e => e.category_id != none)) := by
    rw [List.map_map]
    have hKnodup : (s.categories.map (fun c => (some c.id : Option Nat))).Nodup := by
      have : s.categories.map (fun c => (some c.id : Option Nat)) =
          (s.categories.map Category.id).map some := by rw [List.map_map]; rfl
      rw [this]
      exact hids.map (fun _ _ => Option.some.inj)
    have hmem : ∀ e ∈ (userExpenses s u).filter (fun e => e.category_id != none),
        e.category_id ∈ s.categories.map (fun c => (some c.id : Option Nat)) := by
      intro e he
      have he1 := List.mem_filter.mp he
      cases hc : e.category_id with
      | none => rw [hc] at he1; simp at he1
      | some c =>
          have hcid := hfk e (List.mem_filter.mp he1.1).1 c hc
          obtain ⟨cat, hcat, rfl⟩ := List.mem_map.mp hcid
          exact List.mem_map_of_mem _ hcat
    have := fiber_sum Expense.category_id
      (s.categories.map (fun c => (some c.id : Option Nat))) hKnodup
      ((userExpenses s u).filter (fun e => e.category_id != none)) hmem
    rw [List.map_map] at this
    rw [← this]
    apply congrArg
    apply List.map_congr_left
    intro c _
    show sumAmounts ((userExpenses s u).filter (fun e => e.category_id == some c.id)) = _
    rw [hfib c]
    rfl
  have hmain : ((getDashboardStats now s u).category_breakdown.map
      CategoryBreakdown.amount_spent).sum =
      sumAmounts ((userExpenses s u).filter (fun e => e.category_id != none)) := by
    rw [hamts, hhaving, hpart]
  refine ⟨hmain, ?_⟩
  rintro ⟨e0, he0, hc0, ha0⟩
  -- the uncategorized spend is strictly positive
  have he0m : e0 ∈ (userExpenses s u).filter (fun e => !(e.category_id != none)) := by
    apply List.mem_filter.mpr
    exact ⟨he0, by rw [hc0]; rfl⟩
  have huncat : 0 < sumAmounts ((userExpenses s u).filter (fun e => !(e.category_id != none))) := by
    have hle : e0.amount ≤ sumAmounts ((userExpenses s u).filter
        (fun e => !(e.category_id != none))) := by
      apply List.single_le_sum
      · intro x hx
        obtain ⟨e, he, rfl⟩ := List.mem_map.mp hx
        exact hamtU e (List.mem_filter.mp he).1
      · exact List.mem_map_of_mem Expense.amount he0m
    exact lt_of_lt_of_le ha0 hle
  have hsplit := sumAmounts_filter_split (fun e => e.category_id != none) (userExpenses s u)
  have htotal : (getDashboardStats now s u).total_amount_spent = sumAmounts (userExpenses s u) :=
    rfl
  have hlt : sumAmounts ((userExpenses s u).filter (fun e => e.category_id != none)) <
      sumAmounts (userExpenses s u) := by
    rw [← hsplit]
    exact lt_add_of_pos_right _ huncat
  have htotpos : 0 < sumAmounts (userExpenses s u) := by
    have hcat0 : 0 ≤ sumAmounts ((userExpenses s u).filter (fun e => e.category_id != none)) :=
      sumAmounts_nonneg _ (fun e he => hamtU e (List.mem_filter.mp he).1)
    rw [← hsplit]
    linarith
  constructor
  · rw [hmain, htotal]
    exact hlt
  · -- the percentage column sums to the categorized share of 100
    have hpcts : ((getDashboardStats now s u).category_breakdown.map
        CategoryBreakdown.percentage).sum =
        ((categoryRows s u).map (fun r =>
          if sumAmounts (userExpenses s u) > 0 then
            r.2 / sumAmounts (userExpenses s u) * 100 else 0)).sum := by
      show (((categoryRows s u).map _).map CategoryBreakdown.percentage).sum = _
      rw [List.map_map]
      rfl
    rw [hpcts]
    have hifpos : ((categoryRows s u).map (fun r =>
        if sumAmounts (userExpenses s u) > 0 then
          r.2 / sumAmounts (userExpenses s u) * 100 else 0)) =
        ((categoryRows s u).map (fun r => r.2 / sumAmounts (userExpenses s u) * 100)) := by
      apply List.map_congr_left
      intro r _
      rw [if_pos htotpos]
    rw [hifpos, sum_map_div_mul]
    have hcatlt : ((categoryRows s u).map Prod.snd).sum < sumAmounts (userExpenses s u) := by
      rw [hhaving, hpart]
      exact hlt
    have hdiv : ((categoryRows s u).map Prod.snd).sum / sumAmounts (userExpenses s u) < 1 :=
      (div_lt_one htotpos).mpr hcatlt
    nlinarith [hdiv]

/-- A sample store with a categorized APPROVED expense of 300 and an
uncategorized PENDING expense of 100 for the same user. -/
def uncatStore : Store :=
  ⟨[1], [⟨1, "Food"⟩], [],
   [⟨1, 1, some 1, 300, Status.APPROVED, ⟨2024, 1, 10⟩, 1⟩,
    ⟨2, 1, none, 100, Status.PENDING, ⟨2024, 1, 11⟩, 2⟩]⟩

/-- Witness for C9: with a 100 uncategorized expense present, the dashboard
breakdown sums below the 400 total and its percentages sum below 100. -/
theorem C9_witness :
    ((uncatStore.categories.map Category.id).Nodup ∧
      (∀ e ∈ uncatStore.expenses, 0 ≤ e.amount) ∧
      (∃ e ∈ userExpenses uncatStore 1, e.category_id = none ∧ 0 < e.amount)) ∧
    ((getDashboardStats ⟨2024, 3, 1⟩ uncatStore 1).category_breakdown.map
        CategoryBreakdown.amount_spent).sum <
      (getDashboardStats ⟨2024, 3, 1⟩ uncatStore 1).total_amount_spent ∧
    ((getDashboardStats ⟨2024, 3, 1⟩ uncatStore 1).category_breakdown.map
        CategoryBreakdown.percentage).sum < 100 := by
  have hids : (uncatStore.categories.map Category.id).Nodup := by
    simp [uncatStore]
  have hfk : ∀ e ∈ uncatStore.expenses, ∀ c : Nat, e.category_id = some c →
      c ∈ uncatStore.categories.map Category.id := by
    intro e he c hc
    simp only [uncatStore, List.mem_cons, List.not_mem_nil, or_false] at he
    rcases he with rfl | rfl
    · simp only [Option.some.injEq] at hc
      subst hc
      simp [uncatStore]
    · simp at hc
  have hamt : ∀ e ∈ uncatStore.expenses, 0 ≤ e.amount := by
    intro e he
    simp only [uncatStore, List.mem_cons, List.not_mem_nil, or_false] at he
    rcases he with rfl | rfl <;> norm_num
  have hex : ∃ e ∈ userExpenses uncatStore 1, e.category_id = none ∧ 0 < e.amount := by
    refine ⟨⟨2, 1, none, 100, Status.PENDING, ⟨2024, 1, 11⟩, 2⟩, ?_, rfl, by norm_num⟩
    simp [userExpenses, uncatStore]
  have h := (C9_dashboard_breakdown_uncategorized ⟨2024, 3, 1⟩ uncatStore 1
    hids hfk hamt).2 hex
  exact ⟨⟨hids, hamt, hex⟩, h.1, h.2⟩

lemma analytics_breakdown_eq (s : Store) (i : AnalyticsInput) :
    (getBudgetAnalytics s i).category_breakdown =
      (expenseGroups (analyticsExpenses s i)).map (fun g =>
        ⟨g.1, g.2,
          if ((expenseGroups (analyticsExpenses s i)).map Prod.snd).sum > 0 then
            g.2 / ((expenseGroups (analyticsExpenses s i)).map Prod.snd).sum * 100
          else 0⟩) := rfl

/-- Claim C10: the analytics category breakdown gives null-category APPROVED
in-range expenses their own entry (category_id null), its amount column sums
to total_spent exactly, and its percentages sum to exactly 100 whenever
total_spent is positive and are all 0 when total_spent is 0. -/
theorem C10_analytics_breakdown_null_category (s : Store) (i : AnalyticsInput) :
    ((getBudgetAnalytics s i).category_breakdown.map CategorySpend.amount_spent).sum
      = sumAmounts (analyticsExpenses s i) ∧
    ((∃ e ∈ analyticsExpenses s i, e.category_id = none) →
      ∃ g ∈ (getBudgetAnalytics s i).category_breakdown, g.category_id = none ∧
        g.amount_spent = sumAmounts ((analyticsExpenses s i).filter
          (fun e => e.category_id == (none : Option Nat)))) ∧
    (0 < sumAmounts (analyticsExpenses s i) →
      ((getBudgetAnalytics s i).category_breakdown.map CategorySpend.percentage).sum
        = 100) ∧
    (sumAmounts (analyticsExpenses s i) = 0 →
      ∀ g ∈ (getBudgetAnalytics s i).category_breakdown, g.percentage = 0) := by
  have hsum := expenseGroups_sum (analyticsExpenses s i)
  refine ⟨?_, ?_, ?_, ?_⟩
  · rw [analytics_breakdown_eq, List.map_map]
    calc ((expenseGroups (analyticsExpenses s i)).map _).sum
        = ((expenseGroups (analyticsExpenses s i)).map Prod.snd).sum := rfl
      _ = sumAmounts (analyticsExpenses s i) := hsum
  · rintro ⟨e0, he0, hc0⟩
    have hkey : (none : Option Nat) ∈ (analyticsExpenses s i).map Expense.category_id :=
      hc0 ▸ List.mem_map_of_mem Expense.category_id he0
    have hkeyd : (none : Option Nat) ∈ ((analyticsExpenses s i).map Expense.category_id).dedup :=
      List.mem_dedup.mpr hkey
    have hg : ((none : Option Nat), sumAmounts ((analyticsExpenses s i).filter
        (fun e => e.category_id == (none : Option Nat)))) ∈
        expenseGroups (analyticsExpenses s i) :=
      List.mem_map_of_mem _ hkeyd
    rw [analytics_breakdown_eq]
    exact ⟨_, List.mem_map_of_mem _ hg, rfl, rfl⟩
  · intro hpos
    have hpos' : ((expenseGroups (analyticsExpenses s i)).map Prod.snd).sum > 0 := by
      rw [hsum]; exact hpos
    rw [analytics_breakdown_eq, List.map_map]
    have hifpos : ((expenseGroups (analyticsExpenses s i)).map (CategorySpend.percentage ∘
        fun g => (⟨g.1, g.2,
          if ((expenseGroups (analyticsExpenses s i)).map Prod.snd).sum > 0 then
            g.2 / ((expenseGroups (analyticsExpenses s i)).map Prod.snd).sum * 100
          else 0⟩ : CategorySpend))) =
        ((expenseGroups (analyticsExpenses s i)).map (fun g =>
          g.2 / ((expenseGroups (analyticsExpenses s i)).map Prod.snd).sum * 100)) := by
      apply List.map_congr_left
      intro g _
      show (if ((expenseGroups (analyticsExpenses s i)).map Prod.snd).sum > 0 then
          g.2 / ((expenseGroups (analyticsExpenses s i)).map Prod.snd).sum * 100
        else 0) = _
      rw [if_pos hpos']
    rw [hifpos, sum_map_div_mul, div_self (ne_of_gt hpos')]
    norm_num
  · intro hzero g hg
    rw [analytics_breakdown_eq] at hg
    obtain ⟨g0, _, rfl⟩ := List.mem_map.mp hg
    show (if ((expenseGroups (analyticsExpenses s i)).map Prod.snd).sum > 0 then
        g0.2 / ((expenseGroups (analyticsExpenses s i)).map Prod.snd).sum * 100
      else 0) = 0
    rw [if_neg]
    rw [hsum, hzero]
    exact lt_irrefl 0

/-- A sample store whose single expense is APPROVED, in range for January
2024, and has a null category. -/
def nullCatStore : Store :=
  ⟨[1], [], [],
   [⟨1, 1, none, 200, Status.APPROVED, ⟨2024, 1, 10⟩, 1⟩]⟩

/-- Witness for C10: the null-category expense forms its own breakdown entry
and the percentage column sums to exactly 100. -/
theorem C10_witness :
    ((∃ e ∈ analyticsExpenses nullCatStore analyticsInput, e.category_id = none) ∧
      0 < sumAmounts (analyticsExpenses nullCatStore analyticsInput)) ∧
    (∃ g ∈ (getBudgetAnalytics nullCatStore analyticsInput).category_breakdown,
      g.category_id = none ∧
      g.amount_spent = sumAmounts ((analyticsExpenses nullCatStore analyticsInput).filter
        (fun e => e.category_id == (none : Option Nat)))) ∧
    ((getBudgetAnalytics nullCatStore analyticsInput).category_breakdown.map
      CategorySpend.percentage).sum = 100 := by
  have hlist : analyticsExpenses nullCatStore analyticsInput =
      [⟨1, 1, none, 200, Status.APPROVED, ⟨2024, 1, 10⟩, 1⟩] := by
    simp [analyticsExpenses, nullCatStore, analyticsInput, DateT.dle]
  have hex : ∃ e ∈ analyticsExpenses nullCatStore analyticsInput, e.category_id = none := by
    rw [hlist]
    exact ⟨_, List.mem_cons_self _ _, rfl⟩
  have hpos : 0 < sumAmounts (analyticsExpenses nullCatStore analyticsInput) := by
    rw [hlist]
    norm_num [sumAmounts]
  have h := C10_analytics_breakdown_null_category nullCatStore analyticsInput
  exact ⟨⟨hex, hpos⟩, h.2.1 hex, h.2.2.1 hpos⟩

end ExpenseMgr
